import Mathlib

/-!
Verification of the SceneManager core (CS330 scene composer):
texture registry, material catalog, transform builder, shading-state
publishers, and the fixed draw sequence of `RenderScene`.

Each definition is a shallow embedding of the corresponding function in
`src/SceneManager.cpp` / `src/SceneManager.h`, keeping the source's names
and control flow.  Machine floats in the source are embedded as exact
rationals (the literals are exact decimals) or reals (for the
trigonometric transform builder).
-/

namespace SceneMgr

/-- `SceneManager::TEXTURE_INFO` (SceneManager.h): a registered texture:
string tag plus the GPU handle (`GLuint ID`). -/
structure TEXTURE_INFO where
  tag : String
  ID : Nat
deriving DecidableEq, Repr

/-- `const int MAX_TEXTURES = 16` (SceneManager.h). -/
def MAX_TEXTURES : Int := 16

/-- The texture-registry part of `SceneManager`: the fixed C array
`TEXTURE_INFO m_textureIDs[MAX_TEXTURES]` is embedded as a total function on
`Int` indices (the C++ `int` index type; out-of-bounds indices exist but the
bounds theorems show they are never touched), plus the `int m_loadedTextures`
count. -/
structure TextureRegistry where
  m_textureIDs : Int → TEXTURE_INFO
  m_loadedTextures : Int

/-- The registry as the constructor `SceneManager::SceneManager` leaves it:
`m_loadedTextures = 0`; the array contents are indeterminate (default-
constructed `std::string` tags and uninitialized IDs, modelled as a fixed
default entry). -/
def initRegistry : TextureRegistry :=
  { m_textureIDs := fun _ => { tag := "", ID := 0 }
    m_loadedTextures := 0 }

/-- The result of the external image decoder (`stbi_load`) on success:
width, height and channel count.  `CreateGLTexture` receives
`Option DecodedImage` (`none` = decode failure). -/
structure DecodedImage where
  width : Int
  height : Int
  colorChannels : Int
deriving DecidableEq, Repr

/-- `SceneManager::CreateGLTexture` (SceneManager.cpp lines 68-146).
Inputs: the current registry, the filename and tag, the decoder result and
the GPU handle produced by `glGenTextures`.  Output: the `bool` return
value, the updated registry, and the list of handles passed to
`glDeleteTextures` on the way (the capacity-overflow path deletes the
just-created texture).  Control flow follows the source: decode failure
returns false; a channel count other than 3 or 4 frees the image and
returns false (the GL texture object is not deleted on that path, as in the
source); otherwise, if `m_loadedTextures < MAX_TEXTURES` the texture is
registered at index `m_loadedTextures` and the count is incremented,
else the texture is deleted and false is returned with the registry
untouched. -/
def CreateGLTexture (r : TextureRegistry) (filename : String) (tag : String)
    (image : Option DecodedImage) (textureID : Nat) :
    Bool × TextureRegistry × List Nat :=
  match image with
  | none => (false, r, [])
  | some img =>
    if img.colorChannels = 3 ∨ img.colorChannels = 4 then
      if r.m_loadedTextures < MAX_TEXTURES then
        (true,
         { m_textureIDs := fun i =>
             if i = r.m_loadedTextures then { tag := tag, ID := textureID }
             else r.m_textureIDs i
           m_loadedTextures := r.m_loadedTextures + 1 },
         [])
      else
        (false, r, [textureID])
    else
      (false, r, [])

/-- `SceneManager::BindGLTextures` (lines 154-162): for `i` from 0 below
`m_loadedTextures`, `glActiveTexture(GL_TEXTURE0 + i)` then bind
`m_textureIDs[i].ID`.  Embedded as the ordered list of
(texture-unit offset, bound handle) pairs; the unit offset is also the
array index the iteration reads. -/
def BindGLTextures (r : TextureRegistry) : List (Int × Nat) :=
  (List.range r.m_loadedTextures.toNat).map
    (fun i : Nat => ((i : Int), (r.m_textureIDs (i : Int)).ID))

/-- `SceneManager::DestroyGLTextures` (lines 170-177): deletes
`m_textureIDs[i].ID` for `i` from 0 below `m_loadedTextures`, then resets
the count to 0.  Output: the updated registry and the ordered list of
(array index read, handle passed to `glDeleteTextures`). -/
def DestroyGLTextures (r : TextureRegistry) :
    TextureRegistry × List (Int × Nat) :=
  ({ r with m_loadedTextures := 0 },
   (List.range r.m_loadedTextures.toNat).map
     (fun i : Nat => ((i : Int), (r.m_textureIDs (i : Int)).ID)))

/-- The scan loop of `SceneManager::FindTextureID` (lines 188-206):
`while (index < m_loadedTextures && !bFound)`, on a tag match record
`m_textureIDs[index].ID` and stop, else `index++`.  Fuel is the number of
remaining iterations (`m_loadedTextures - index`).  Returns the `int`
result (`-1` when not found) together with the list of array indices the
loop reads. -/
def findIDLoop (arr : Int → TEXTURE_INFO) (tag : String) :
    Nat → Int → Int × List Int
  | 0, _ => (-1, [])
  | n + 1, index =>
    if (arr index).tag = tag then ((arr index).ID, [index])
    else
      let rest := findIDLoop arr tag n (index + 1)
      (rest.1, index :: rest.2)

/-- `SceneManager::FindTextureID`: result of the scan started at index 0. -/
def FindTextureID (r : TextureRegistry) (tag : String) : Int :=
  (findIDLoop r.m_textureIDs tag r.m_loadedTextures.toNat 0).1

/-- The scan loop of `SceneManager::FindTextureSlot` (lines 217-235):
identical to the `FindTextureID` loop except that the recorded result is
the index itself.  Returns the `int` result (`-1` when not found) together
with the list of array indices read. -/
def findSlotLoop (arr : Int → TEXTURE_INFO) (tag : String) :
    Nat → Int → Int × List Int
  | 0, _ => (-1, [])
  | n + 1, index =>
    if (arr index).tag = tag then (index, [index])
    else
      let rest := findSlotLoop arr tag n (index + 1)
      (rest.1, index :: rest.2)

/-- `SceneManager::FindTextureSlot`: result of the scan started at index 0. -/
def FindTextureSlot (r : TextureRegistry) (tag : String) : Int :=
  (findSlotLoop r.m_textureIDs tag r.m_loadedTextures.toNat 0).1

/-- `SceneManager::OBJECT_MATERIAL` (SceneManager.h): diffuse color,
specular color, shininess, tag.  The float fields are exact decimals in
the source, embedded as rationals. -/
structure OBJECT_MATERIAL where
  diffuseColor : ℚ × ℚ × ℚ
  specularColor : ℚ × ℚ × ℚ
  shininess : ℚ
  tag : String
deriving DecidableEq, Repr

/-- The scan loop of `SceneManager::FindMaterial` (lines 254-269):
`while (index < size && !bFound)`; on a tag match copy `diffuseColor`,
`specularColor` and `shininess` (not the tag) into the output parameter
and stop, else `index++`.  The argument `material` is the current value of
the in-out parameter; it is returned unchanged when no record matches. -/
def findMaterialLoop (mats : List OBJECT_MATERIAL) (tag : String)
    (material : OBJECT_MATERIAL) : OBJECT_MATERIAL :=
  match mats with
  | [] => material
  | m :: rest =>
    if m.tag = tag then
      { material with
          diffuseColor := m.diffuseColor
          specularColor := m.specularColor
          shininess := m.shininess }
    else findMaterialLoop rest tag material

/-- `SceneManager::FindMaterial` (lines 247-272): returns false immediately
when the catalog is empty; otherwise runs the scan loop and returns true
regardless of whether any tag matched.  Result: (the `bool` return value,
the final value of the in-out `material` parameter). -/
def FindMaterial (mats : List OBJECT_MATERIAL) (tag : String)
    (material : OBJECT_MATERIAL) : Bool × OBJECT_MATERIAL :=
  if mats.length = 0 then (false, material)
  else (true, findMaterialLoop mats tag material)

/-- `SceneManager::DefineObjectMaterials` (lines 438-535): clears the
catalog and appends the twelve scene materials in source order with the
exact literal field values. -/
def DefineObjectMaterials : List OBJECT_MATERIAL :=
  [ { diffuseColor := (0.8, 0.4, 0.8), specularColor := (0.2, 0.2, 0.2),
      shininess := 1.0, tag := "plastic" },
    { diffuseColor := (0.6, 0.5, 0.2), specularColor := (0.1, 0.2, 0.2),
      shininess := 1.0, tag := "wood" },
    { diffuseColor := (0.3, 0.3, 0.2), specularColor := (0.7, 0.7, 0.8),
      shininess := 8.0, tag := "metal" },
    { diffuseColor := (0.3, 0.3, 0.2), specularColor := (0.9, 0.9, 0.8),
      shininess := 10.0, tag := "glass" },
    { diffuseColor := (0.5, 0.5, 0.5), specularColor := (0.7, 0.7, 0.7),
      shininess := 6.0, tag := "tile" },
    { diffuseColor := (0.5, 0.5, 0.5), specularColor := (0.73, 0.3, 0.3),
      shininess := 6.0, tag := "stone" },
    { diffuseColor := (1.0, 0.98, 0.88), specularColor := (0.1, 0.1, 0.1),
      shininess := 0.5, tag := "lampshade" },
    { diffuseColor := (0.25, 0.15, 0.05), specularColor := (0.2, 0.2, 0.1),
      shininess := 3.0, tag := "lampbase" },
    { diffuseColor := (0.4, 0.05, 0.05), specularColor := (0.05, 0.05, 0.05),
      shininess := 0.8, tag := "bookcover" },
    { diffuseColor := (0.7, 0.7, 0.9), specularColor := (0.3, 0.3, 0.4),
      shininess := 3.0, tag := "jar" },
    { diffuseColor := (0.4, 0.3, 0.2), specularColor := (0.8, 0.8, 0.8),
      shininess := 30.0, tag := "tableSurface" },
    { diffuseColor := (0.9, 0.9, 0.9), specularColor := (0.1, 0.1, 0.1),
      shininess := 1.0, tag := "windowFrame" } ]

/-- The named shader uniforms the publish operations write (excluding the
model matrix, which lives in the real-valued transform embedding):
`bUseTexture`, `objectColor`, `objectTexture`, `UVscale`, and the three
`material.*` uniforms. -/
structure ShaderState where
  bUseTexture : Bool
  objectColor : ℚ × ℚ × ℚ × ℚ
  objectTexture : Int
  UVscale : ℚ × ℚ
  materialDiffuseColor : ℚ × ℚ × ℚ
  materialSpecularColor : ℚ × ℚ × ℚ
  materialShininess : ℚ
deriving DecidableEq, Repr

/-- `SceneManager::SetShaderColor` (lines 334-353): when the shader-manager
handle is non-null, disable texturing and publish the color; when null, do
nothing.  The handle is `Option ShaderState` (`none` = `NULL`
`m_pShaderManager`, carrying the currently published uniforms when
non-null). -/
def SetShaderColor (sh : Option ShaderState) (r g b a : ℚ) :
    Option ShaderState :=
  match sh with
  | none => none
  | some s => some { s with bUseTexture := false, objectColor := (r, g, b, a) }

/-- `SceneManager::SetShaderTexture` (lines 363-382): when the handle is
non-null, enable texturing, look up the texture slot by tag; on a hit
publish the slot, on a miss log a warning and disable texturing again.
Result: (new uniform state, warning log lines). -/
def SetShaderTexture (sh : Option ShaderState) (reg : TextureRegistry)
    (textureTag : String) : Option ShaderState × List String :=
  match sh with
  | none => (none, [])
  | some s =>
    let s1 := { s with bUseTexture := true }
    let textureID := FindTextureSlot reg textureTag
    if textureID ≠ -1 then
      (some { s1 with objectTexture := textureID }, [])
    else
      (some { s1 with bUseTexture := false },
       ["Warning: Texture with tag " ++ textureTag ++ " not found."])

/-- `SceneManager::SetTextureUVScale` (lines 393-399): when the handle is
non-null publish the `UVscale` vector, else do nothing. -/
def SetTextureUVScale (sh : Option ShaderState) (u v : ℚ) :
    Option ShaderState :=
  match sh with
  | none => none
  | some s => some { s with UVscale := (u, v) }

/-- `SceneManager::SetShaderMaterial` (lines 409-430): when the catalog is
non-empty, declare a local `OBJECT_MATERIAL material` (uninitialized in the
source — its indeterminate contents are the parameter `localMaterial`),
call `FindMaterial`, and if it reported found publish the three
`material.*` uniforms THROUGH `m_pShaderManager` WITHOUT a null check
(every other publisher checks; a null handle here is a null-pointer
dereference, embedded as `Except.error ()`); if it reported not-found log
a warning.  When the catalog is empty, do nothing.
Result on the non-crashing paths: (uniform state, warning log lines). -/
def SetShaderMaterial (sh : Option ShaderState)
    (mats : List OBJECT_MATERIAL) (materialTag : String)
    (localMaterial : OBJECT_MATERIAL) :
    Except Unit (Option ShaderState × List String) :=
  if mats.length > 0 then
    let found := FindMaterial mats materialTag localMaterial
    if found.1 = true then
      match sh with
      | none => Except.error ()
      | some s =>
        Except.ok
          (some { s with
                    materialDiffuseColor := found.2.diffuseColor
                    materialSpecularColor := found.2.specularColor
                    materialShininess := found.2.shininess },
           [])
    else
      Except.ok
        (sh, ["Warning: Material with tag " ++ materialTag ++ " not found."])
  else
    Except.ok (sh, [])

/-! ### Transform builder

`SceneManager::SetTransformations` (lines 288-321) builds the model matrix
with glm.  glm matrices are stored column-major and act on column vectors;
they are embedded here as mathematical `Matrix (Fin 4) (Fin 4) ℝ`
(entry = (row, column)), so glm entry `M[c][r]` is Lean entry `M r c`. -/

noncomputable section

/-- `glm::radians`: degrees to radians. -/
def radians (degrees : ℝ) : ℝ := degrees * (Real.pi / 180)

/-- `glm::scale(vec3)`: diagonal scale matrix. -/
def glm_scale (v : ℝ × ℝ × ℝ) : Matrix (Fin 4) (Fin 4) ℝ :=
  !![v.1, 0,     0,     0;
     0,   v.2.1, 0,     0;
     0,   0,     v.2.2, 0;
     0,   0,     0,     1]

/-- `glm::translate(vec3)`: identity with the translation in the fourth
column (glm column 3). -/
def glm_translate (t : ℝ × ℝ × ℝ) : Matrix (Fin 4) (Fin 4) ℝ :=
  !![1, 0, 0, t.1;
     0, 1, 0, t.2.1;
     0, 0, 1, t.2.2;
     0, 0, 0, 1]

/-- `glm::rotate(angle, axis)`: the Rodrigues rotation matrix glm builds
from `c = cos angle`, `s = sin angle` and `temp = (1-c) * axis`, transcribed
from glm's column-major `Rotate[c][r]` assignments into row/column form.
glm normalizes the axis first; `SetTransformations` only passes the unit
axes (1,0,0), (0,1,0), (0,0,1), on which normalization is the identity. -/
def glm_rotate (angle : ℝ) (axis : ℝ × ℝ × ℝ) : Matrix (Fin 4) (Fin 4) ℝ :=
  let c := Real.cos angle
  let s := Real.sin angle
  let a0 := axis.1
  let a1 := axis.2.1
  let a2 := axis.2.2
  let t0 := (1 - c) * a0
  let t1 := (1 - c) * a1
  let t2 := (1 - c) * a2
  !![c + t0 * a0,      t1 * a0 - s * a2, t2 * a0 + s * a1, 0;
     t0 * a1 + s * a2, c + t1 * a1,      t2 * a1 - s * a0, 0;
     t0 * a2 - s * a1, t1 * a2 + s * a0, c + t2 * a2,      0;
     0,                0,                0,                1]

/-- Componentwise `glm::vec3` addition (`positionXYZ + offset`). -/
def vec3add (a b : ℝ × ℝ × ℝ) : ℝ × ℝ × ℝ :=
  (a.1 + b.1, a.2.1 + b.2.1, a.2.2 + b.2.2)

/-- The model matrix `SceneManager::SetTransformations` computes (lines
296-314): scale, per-axis rotations from degrees, translation by
`positionXYZ + offset`, combined as
`modelView = translation * rotationZ * rotationY * rotationX * scale`. -/
def SetTransformations_model (scaleXYZ : ℝ × ℝ × ℝ)
    (XrotationDegrees YrotationDegrees ZrotationDegrees : ℝ)
    (positionXYZ offset : ℝ × ℝ × ℝ) : Matrix (Fin 4) (Fin 4) ℝ :=
  let scale := glm_scale scaleXYZ
  let rotationX := glm_rotate (radians XrotationDegrees) (1, 0, 0)
  let rotationY := glm_rotate (radians YrotationDegrees) (0, 1, 0)
  let rotationZ := glm_rotate (radians ZrotationDegrees) (0, 0, 1)
  let translation := glm_translate (vec3add positionXYZ offset)
  translation * rotationZ * rotationY * rotationX * scale

/-- The publish step of `SetTransformations` (lines 317-320): the computed
model matrix is written to the `model` uniform only when `m_pShaderManager`
is non-null; with a null handle nothing is published.  The handle carries
the currently published model matrix when non-null. -/
def SetTransformations_publish (sh : Option (Matrix (Fin 4) (Fin 4) ℝ))
    (scaleXYZ : ℝ × ℝ × ℝ)
    (XrotationDegrees YrotationDegrees ZrotationDegrees : ℝ)
    (positionXYZ offset : ℝ × ℝ × ℝ) :
    Option (Matrix (Fin 4) (Fin 4) ℝ) :=
  match sh with
  | none => none
  | some _ =>
    some (SetTransformations_model scaleXYZ XrotationDegrees
      YrotationDegrees ZrotationDegrees positionXYZ offset)

/-- Spec-side reference: the standard rotation matrix about the X unit
axis, written independently of `glm_rotate`. -/
def rotationAboutX (θ : ℝ) : Matrix (Fin 4) (Fin 4) ℝ :=
  !![1, 0,          0,           0;
     0, Real.cos θ, -Real.sin θ, 0;
     0, Real.sin θ, Real.cos θ,  0;
     0, 0,          0,           1]

/-- Spec-side reference: the standard rotation matrix about the Y unit
axis. -/
def rotationAboutY (θ : ℝ) : Matrix (Fin 4) (Fin 4) ℝ :=
  !![Real.cos θ,  0, Real.sin θ, 0;
     0,           1, 0,          0;
     -Real.sin θ, 0, Real.cos θ, 0;
     0,           0, 0,          1]

/-- Spec-side reference: the standard rotation matrix about the Z unit
axis. -/
def rotationAboutZ (θ : ℝ) : Matrix (Fin 4) (Fin 4) ℝ :=
  !![Real.cos θ, -Real.sin θ, 0, 0;
     Real.sin θ, Real.cos θ,  0, 0;
     0,          0,           1, 0;
     0,          0,           0, 1]

end

/-! ### Scene composer: the fixed draw sequence of `RenderScene`

`SceneManager::RenderScene` (lines 664-994) is a straight-line sequence of
publish and draw calls.  It is embedded as the ordered list of those calls;
positions and scales (exact decimal float literals) are rationals. -/

/-- The five primitive mesh kinds of the `ShapeMeshes` collaborator. -/
inductive PrimitiveKind where
  | plane
  | box
  | cone
  | sphere
  | cylinder
deriving DecidableEq, Repr

/-- One call `RenderScene` makes: a `SetTransformations` with its
arguments (all call sites in `RenderScene` leave `offset` at its default
`(0,0,0)`), a texture / material / UV-scale publish, or a
`m_basicMeshes->Draw*Mesh()` draw of a primitive. -/
inductive SceneOp where
  | setTransform (scaleXYZ : ℚ × ℚ × ℚ) (xDeg yDeg zDeg : ℚ)
      (positionXYZ : ℚ × ℚ × ℚ) (offset : ℚ × ℚ × ℚ)
  | setTexture (tag : String)
  | setMaterial (tag : String)
  | setUVScale (u v : ℚ)
  | draw (kind : PrimitiveKind)
deriving DecidableEq, Repr

/-- `glm::vec3` addition for the rational scene coordinates
(`basePos + glm::vec3(...)` at the `RenderScene` call sites). -/
def qv3add (a b : ℚ × ℚ × ℚ) : ℚ × ℚ × ℚ :=
  (a.1 + b.1, a.2.1 + b.2.1, a.2.2 + b.2.2)

/-- The floor / table-surface block of `RenderScene` (lines 671-679). -/
def floorOps : List SceneOp :=
  [ .setTransform (10, 0.1, 5) 0 0 0 (0, 0, 0) (0, 0, 0),
    .setTexture "table",
    .setMaterial "tableSurface",
    .setUVScale 2 1,
    .draw .plane ]

/-- One lamp block of `RenderScene`.  The source writes the two lamp
blocks out twice (lines 682-763 and 767-848); they are verbatim identical
up to the anchor `basePos` (`(-3, 0.05, 0)` for lamp 1, `(3, 0.05, 0)` for
lamp 2), so the common block is defined once over `basePos`. -/
def lampOps (basePos : ℚ × ℚ × ℚ) : List SceneOp :=
  [ -- Base Bottom (Box)
    .setTransform (1.8, 0.3, 1.8) 0 45 0 basePos (0, 0, 0),
    .setTexture "stand",
    .setMaterial "lampbase",
    .draw .box,
    -- Base Mid (Cylinder)
    .setTransform (1.3, 0.4, 1.3) 0 0 0 (qv3add basePos (0, 0.3, 0)) (0, 0, 0),
    .setMaterial "lampbase",
    .draw .cylinder,
    -- Base Top (Cone - inverted)
    .setTransform (1.5, 0.5, 1.5) 0 0 180 (qv3add basePos (0, 0.7, 0)) (0, 0, 0),
    .setMaterial "lampbase",
    .draw .cone,
    -- Lower Body (Cylinder)
    .setTransform (1.1, 1.0, 1.1) 0 0 0 (qv3add basePos (0, 1.3, 0)) (0, 0, 0),
    .setTexture "neck",
    .setMaterial "lampbase",
    .draw .cylinder,
    -- curve joint 1 (Sphere)
    .setTransform (1.0, 0.5, 1.0) 0 0 0 (qv3add basePos (0, 2.3, 0)) (0, 0, 0),
    .setMaterial "lampbase",
    .draw .sphere,
    -- second lower-body Cylinder
    .setTransform (0.9, 1.2, 0.9) 0 0 0 (qv3add basePos (0, 3.0, 0)) (0, 0, 0),
    .setMaterial "lampbase",
    .draw .cylinder,
    -- curve joint 2 (Sphere)
    .setTransform (0.8, 0.4, 0.8) 0 0 0 (qv3add basePos (0, 4.2, 0)) (0, 0, 0),
    .setMaterial "lampbase",
    .draw .sphere,
    -- Upper Body (thin Cylinder)
    .setTransform (0.4, 3.0, 0.4) 0 0 0 (qv3add basePos (0, 5.0, 0)) (0, 0, 0),
    .setTexture "wooden",
    .setMaterial "wood",
    .draw .cylinder,
    -- Shade (Cone)
    .setTransform (2.5, 2.5, 2.5) 0 0 0 (qv3add basePos (0, 8.0, 0)) (0, 0, 0),
    .setMaterial "lampshade",
    .draw .cone,
    -- Finial (small Sphere)
    .setTransform (0.3, 0.3, 0.3) 0 0 0 (qv3add basePos (0, 10.5, 0)) (0, 0, 0),
    .setMaterial "metal",
    .draw .sphere ]

/-- The two stacked books (lines 851-869). -/
def bookOps : List SceneOp :=
  [ -- Book 1 (bottom)
    .setTransform (2.8, 0.15, 2.0) 0 0 0 (0, 0.05, 0) (0, 0, 0),
    .setTexture "bookcover_tex",
    .setMaterial "bookcover",
    .setUVScale 1 1,
    .draw .box,
    -- Book 2 (stacked, slight Y rotation)
    .setTransform (2.6, 0.12, 1.9) 0 5 0 (0, 0.21, 0) (0, 0, 0),
    .setTexture "bookcover_tex",
    .setMaterial "bookcover",
    .setUVScale 1 1,
    .draw .box ]

/-- The five-part jar (lines 872-912), anchored at
`jarPos = (0, 0.36, 0)`. -/
def jarOps : List SceneOp :=
  let jarPos : ℚ × ℚ × ℚ := (0, 0.36, 0)
  [ -- Jar base (Cylinder)
    .setTransform (0.8, 0.6, 0.8) 0 0 0 jarPos (0, 0, 0),
    .setTexture "vase",
    .setMaterial "jar",
    .setUVScale 1 1,
    .draw .cylinder,
    -- Jar body (Sphere)
    .setTransform (0.9, 0.9, 0.9) 0 0 0 (qv3add jarPos (0, 0.6, 0)) (0, 0, 0),
    .setTexture "vase",
    .setMaterial "jar",
    .setUVScale 1 1,
    .draw .sphere,
    -- Jar neck (Cylinder)
    .setTransform (0.5, 0.4, 0.5) 0 0 0 (qv3add jarPos (0, 1.5, 0)) (0, 0, 0),
    .setMaterial "jar",
    .draw .cylinder,
    -- Jar lid (flattened Sphere)
    .setTransform (0.7, 0.3, 0.7) 0 0 0 (qv3add jarPos (0, 1.9, 0)) (0, 0, 0),
    .setMaterial "jar",
    .draw .sphere,
    -- Lid handle (small Sphere)
    .setTransform (0.2, 0.2, 0.2) 0 0 0 (qv3add jarPos (0, 2.1, 0)) (0, 0, 0),
    .setMaterial "jar",
    .draw .sphere ]

/-- The window / back-wall block (lines 915-990): background plane, five
frame boxes anchored at `windowFramePos = (0, 5, -4.9)`, and two glass-pane
planes anchored at `windowPanePos = (0, 5, -4.8)`.  Publish calls the
source intentionally omits (e.g. no texture publish for the right vertical
frame, the center divider and the panes) are omitted here too. -/
def windowOps : List SceneOp :=
  let windowFramePos : ℚ × ℚ × ℚ := (0, 5, -4.9)
  let windowPanePos : ℚ × ℚ × ℚ := (0, 5, -4.8)
  [ -- Outside view (large Plane)
    .setTransform (15, 10, 0.1) 0 0 0 (0, 5, -5) (0, 0, 0),
    .setMaterial "tile",
    .setUVScale 1 1,
    .draw .plane,
    -- Window-frame material is published once before the frame boxes
    .setMaterial "windowFrame",
    -- Top horizontal frame (Box)
    .setTransform (7.5, 0.3, 0.1) 0 0 0
      (qv3add windowFramePos (0, 4.15, 0)) (0, 0, 0),
    .setTexture "window_frame_tex",
    .setUVScale 1 1,
    .draw .box,
    -- Bottom horizontal frame (Box)
    .setTransform (7.5, 0.3, 0.1) 0 0 0
      (qv3add windowFramePos (0, -4.15, 0)) (0, 0, 0),
    .setTexture "window_frame_tex",
    .setUVScale 1 1,
    .draw .box,
    -- Left vertical frame (Box)
    .setTransform (0.3, 8.5, 0.1) 0 0 0
      (qv3add windowFramePos (-3.6, 0, 0)) (0, 0, 0),
    .setTexture "window_frame_tex",
    .setUVScale 1 1,
    .draw .box,
    -- Right vertical frame (Box) - no texture publish in the source
    .setTransform (0.3, 8.5, 0.1) 0 0 0
      (qv3add windowFramePos (3.6, 0, 0)) (0, 0, 0),
    .setUVScale 1 1,
    .draw .box,
    -- Center vertical divider (Box) - no texture publish in the source
    .setTransform (0.15, 8.3, 0.1) 0 0 0
      (qv3add windowFramePos (0, 0, 0)) (0, 0, 0),
    .setUVScale 1 1,
    .draw .box,
    -- UV scale published once before the panes (line 976)
    .setUVScale 1 1,
    -- Left pane (Plane)
    .setTransform (100.4, 100.2, 0.05) 0 0 0
      (qv3add windowPanePos (-1.8, 0, 0)) (0, 0, 0),
    .setUVScale 1 1,
    .draw .plane,
    -- Right pane (Plane)
    .setTransform (100.4, 100.2, 0.05) 0 0 0
      (qv3add windowPanePos (1.8, 0, 0)) (0, 0, 0),
    .setUVScale 1 1,
    .draw .plane ]

/-- `SceneManager::RenderScene` (lines 664-994): floor, lamp 1 anchored at
`(-3, 0.05, 0)`, lamp 2 anchored at `(3, 0.05, 0)`, books, jar, then the
window wall, in source order. -/
def RenderScene : List SceneOp :=
  floorOps ++ lampOps (-3, 0.05, 0) ++ lampOps (3, 0.05, 0) ++
    bookOps ++ jarOps ++ windowOps

/-- The draw commands a block of `RenderScene` issues, in order. -/
def drawCalls (ops : List SceneOp) : List PrimitiveKind :=
  ops.filterMap (fun op =>
    match op with
    | .draw k => some k
    | _ => none)

/-! ### Concrete fixtures for witnesses and counterexamples -/

/-- Registry after one successful RGB registration (tag "a", handle 101)
starting from the freshly constructed registry. -/
def regA : TextureRegistry :=
  (CreateGLTexture initRegistry "a.jpg" "a"
    (some { width := 1024, height := 1024, colorChannels := 3 }) 101).2.1

/-- Registry after registering "a" then "b" (handle 102). -/
def regAB : TextureRegistry :=
  (CreateGLTexture regA "b.jpg" "b"
    (some { width := 1024, height := 1024, colorChannels := 3 }) 102).2.1

/-- Registry after registering "a", "b", "c" (handle 103). -/
def regABC : TextureRegistry :=
  (CreateGLTexture regAB "c.jpg" "c"
    (some { width := 1024, height := 1024, colorChannels := 3 }) 103).2.1

/-- A registry holding the fixed maximum number of textures. -/
def fullRegistry16 : TextureRegistry :=
  { m_textureIDs := fun _ => { tag := "tex", ID := 7 }
    m_loadedTextures := 16 }

/-- A previously published uniform state, used as the concrete
pre-state in counterexamples and witnesses. -/
def prevShaderState : ShaderState :=
  { bUseTexture := false
    objectColor := (0, 0, 0, 1)
    objectTexture := -1
    UVscale := (1, 1)
    materialDiffuseColor := (1, 1, 1)
    materialSpecularColor := (1, 1, 1)
    materialShininess := 5 }

/-- A concrete value standing for the indeterminate contents of the
uninitialized local `OBJECT_MATERIAL` in `SetShaderMaterial`. -/
def junkLocalMaterial : OBJECT_MATERIAL :=
  { diffuseColor := (0, 0, 0)
    specularColor := (0, 0, 0)
    shininess := 0
    tag := "" }

/-! ### Helper lemmas -/

/-- If no entry in the scanned window matches, the slot scan returns -1. -/
theorem findSlotLoop_none (arr : Int → TEXTURE_INFO) (tag : String) :
    ∀ (n : Nat) (start : Int),
      (∀ j : Int, start ≤ j → j < start + n → (arr j).tag ≠ tag) →
      (findSlotLoop arr tag n start).1 = -1 := by
  intro n
  induction n with
  | zero => intro start _; rfl
  | succ n ih =>
    intro start h
    have hs : (arr start).tag ≠ tag := h start le_rfl (by omega)
    simp only [findSlotLoop, if_neg hs]
    exact ih (start + 1) (fun j h1 h2 => h j (by omega) (by omega))

/-- The slot scan returns the first matching index in the scanned
window. -/
theorem findSlotLoop_first (arr : Int → TEXTURE_INFO) (tag : String) :
    ∀ (n : Nat) (start i : Int),
      start ≤ i → i < start + n → (arr i).tag = tag →
      (∀ j : Int, start ≤ j → j < i → (arr j).tag ≠ tag) →
      (findSlotLoop arr tag n start).1 = i := by
  intro n
  induction n with
  | zero =>
    intro start i h1 h2 _ _
    exact absurd h2 (by omega)
  | succ n ih =>
    intro start i h1 h2 hm hmiss
    by_cases hs : (arr start).tag = tag
    · have heq : i = start := by
        by_contra hne
        exact hmiss start le_rfl (by omega) hs
      subst heq
      simp only [findSlotLoop, if_pos hs]
    · have hne : i ≠ start := fun he => hs (he ▸ hm)
      simp only [findSlotLoop, if_neg hs]
      exact ih (start + 1) i (by omega) (by omega) hm
        (fun j hj1 hj2 => hmiss j (by omega) hj2)

/-- Every array index the slot scan reads lies in the scanned window. -/
theorem findSlotLoop_touched (arr : Int → TEXTURE_INFO) (tag : String) :
    ∀ (n : Nat) (start : Int),
      ∀ j ∈ (findSlotLoop arr tag n start).2, start ≤ j ∧ j < start + n := by
  intro n
  induction n with
  | zero => intro start j hj; simp [findSlotLoop] at hj
  | succ n ih =>
    intro start j hj
    by_cases hs : (arr start).tag = tag
    · simp only [findSlotLoop, if_pos hs, List.mem_singleton] at hj
      subst hj
      exact ⟨le_rfl, by omega⟩
    · simp only [findSlotLoop, if_neg hs, List.mem_cons] at hj
      rcases hj with rfl | hj
      · exact ⟨le_rfl, by omega⟩
      · have := ih (start + 1) j hj
        exact ⟨by omega, by omega⟩

/-- Every array index the ID scan reads lies in the scanned window. -/
theorem findIDLoop_touched (arr : Int → TEXTURE_INFO) (tag : String) :
    ∀ (n : Nat) (start : Int),
      ∀ j ∈ (findIDLoop arr tag n start).2, start ≤ j ∧ j < start + n := by
  intro n
  induction n with
  | zero => intro start j hj; simp [findIDLoop] at hj
  | succ n ih =>
    intro start j hj
    by_cases hs : (arr start).tag = tag
    · simp only [findIDLoop, if_pos hs, List.mem_singleton] at hj
      subst hj
      exact ⟨le_rfl, by omega⟩
    · simp only [findIDLoop, if_neg hs, List.mem_cons] at hj
      rcases hj with rfl | hj
      · exact ⟨le_rfl, by omega⟩
      · have := ih (start + 1) j hj
        exact ⟨by omega, by omega⟩

/-- When no record matches, the material scan leaves the in-out parameter
unchanged. -/
theorem findMaterialLoop_not_found (mats : List OBJECT_MATERIAL)
    (tag : String) (material : OBJECT_MATERIAL)
    (h : ∀ m ∈ mats, m.tag ≠ tag) :
    findMaterialLoop mats tag material = material := by
  induction mats with
  | nil => rfl
  | cons m rest ih =>
    simp only [findMaterialLoop, if_neg (h m (List.mem_cons_self m rest))]
    exact ih (fun x hx => h x (List.mem_cons_of_mem m hx))

/-- The draw kinds one lamp block issues, in order: the source lamp is
built from TEN primitives (box, cylinder, cone, cylinder, sphere,
cylinder, sphere, thin cylinder, cone shade, sphere finial). -/
def lampDrawKinds : List PrimitiveKind :=
  [.box, .cylinder, .cone, .cylinder, .sphere,
   .cylinder, .sphere, .cylinder, .cone, .sphere]

/-! ### Claim theorems -/

/-- C1 counterexample: `RenderScene` issues 10 draw commands per lamp, not
the 9 the claim states, hence 20 lamp draws rather than 18 and 36 draw
commands in total rather than 18 + 1 + 2 + 5 + 8 = 34. -/
theorem C1_counterexample :
    (drawCalls (lampOps (-3, 0.05, 0))).length = 10 ∧
    (drawCalls (lampOps (-3, 0.05, 0))).length ≠ 9 ∧
    (drawCalls (lampOps (-3, 0.05, 0)) ++
        drawCalls (lampOps (3, 0.05, 0))).length ≠ 18 ∧
    (drawCalls RenderScene).length = 36 ∧
    (drawCalls RenderScene).length ≠ 18 + 1 + 2 + 5 + 8 := by
  refine ⟨rfl, ?_, ?_, rfl, ?_⟩ <;> decide

/-- C1 (amended): one call to `RenderScene` issues exactly 36 draw
commands in the fixed documented order: 1 floor plane, 20 lamp draws
(2 lamps of 10 primitives each: box, cylinder, cone, cylinder, sphere,
cylinder, sphere, thin cylinder, cone shade, sphere finial), 2 book boxes,
5 jar parts, and 8 window/wall parts. -/
theorem C1_renderFrame_draw_sequence :
    drawCalls RenderScene =
      [PrimitiveKind.plane] ++ lampDrawKinds ++ lampDrawKinds ++
        [.box, .box] ++
        [.cylinder, .sphere, .cylinder, .sphere, .sphere] ++
        [.plane, .box, .box, .box, .box, .box, .plane, .plane] ∧
    drawCalls (lampOps (-3, 0.05, 0)) = lampDrawKinds ∧
    drawCalls (lampOps (3, 0.05, 0)) = lampDrawKinds ∧
    lampDrawKinds.length = 10 ∧
    (drawCalls floorOps).length = 1 ∧
    (drawCalls bookOps).length = 2 ∧
    (drawCalls jarOps).length = 5 ∧
    (drawCalls windowOps).length = 8 ∧
    (drawCalls RenderScene).length = 1 + 10 + 10 + 2 + 5 + 8 :=
  ⟨rfl, rfl, rfl, rfl, rfl, rfl, rfl, rfl, rfl⟩

/-- C2 counterexample: with the non-empty reference catalog and a tag that
resolves nowhere, `SetShaderMaterial` logs NO warning and OVERWRITES the
previously published material uniforms with the contents of its
uninitialized local record, instead of warning and leaving them
unchanged. -/
theorem C2_counterexample :
    SetShaderMaterial (some prevShaderState) DefineObjectMaterials
        "missingTag" junkLocalMaterial =
      Except.ok
        (some { prevShaderState with
                  materialDiffuseColor := (0, 0, 0)
                  materialSpecularColor := (0, 0, 0)
                  materialShininess := 0 },
         []) ∧
    ({ prevShaderState with
         materialDiffuseColor := (0, 0, 0)
         materialSpecularColor := (0, 0, 0)
         materialShininess := 0 } : ShaderState) ≠ prevShaderState := by
  refine ⟨rfl, ?_⟩
  decide

/-- C2 (amended): for every tag that does not resolve in the non-empty
Material Catalog, `SetShaderMaterial` (with a non-null handle) publishes
no warning, does not abort (returns normally), and overwrites the
published material uniforms with the indeterminate contents of its
uninitialized local `OBJECT_MATERIAL`, because `FindMaterial` reports
found without writing the output parameter. -/
theorem C2_material_miss_behavior (s : ShaderState)
    (mats : List OBJECT_MATERIAL) (materialTag : String)
    (localMaterial : OBJECT_MATERIAL)
    (hne : mats ≠ [])
    (hmiss : ∀ m ∈ mats, m.tag ≠ materialTag) :
    SetShaderMaterial (some s) mats materialTag localMaterial =
      Except.ok
        (some { s with
                  materialDiffuseColor := localMaterial.diffuseColor
                  materialSpecularColor := localMaterial.specularColor
                  materialShininess := localMaterial.shininess },
         []) := by
  have hlen : mats.length > 0 := by
    cases mats with
    | nil => exact absurd rfl hne
    | cons a l => simp
  have hfind : FindMaterial mats materialTag localMaterial =
      (true, localMaterial) := by
    simp only [FindMaterial, if_neg (by omega : ¬ mats.length = 0),
      findMaterialLoop_not_found mats materialTag localMaterial hmiss]
  simp [SetShaderMaterial, hlen, hfind]

/-- C2 witness: the amended behavior at the concrete reference catalog. -/
theorem C2_witness :
    SetShaderMaterial (some prevShaderState) DefineObjectMaterials
        "missingTag" junkLocalMaterial =
      Except.ok
        (some { prevShaderState with
                  materialDiffuseColor := junkLocalMaterial.diffuseColor
                  materialSpecularColor := junkLocalMaterial.specularColor
                  materialShininess := junkLocalMaterial.shininess },
         []) :=
  C2_material_miss_behavior prevShaderState DefineObjectMaterials
    "missingTag" junkLocalMaterial (by decide) (by decide)

/-- C3: on a non-empty catalog with no matching tag, `FindMaterial`
returns true (reports found) while leaving the output parameter exactly
as it was — found and not-found are not mutually exclusive. -/
theorem C3_findMaterial_nonempty_always_found
    (mats : List OBJECT_MATERIAL) (tag : String)
    (material : OBJECT_MATERIAL)
    (hne : mats ≠ [])
    (hmiss : ∀ m ∈ mats, m.tag ≠ tag) :
    FindMaterial mats tag material = (true, material) := by
  have hlen : ¬ mats.length = 0 := by
    cases mats with
    | nil => exact absurd rfl hne
    | cons a l => simp
  simp only [FindMaterial, if_neg hlen,
    findMaterialLoop_not_found mats tag material hmiss]

/-- C3 witness: the reference catalog is non-empty, holds no record tagged
"missingTag", and `FindMaterial` still reports found with the output
parameter untouched. -/
theorem C3_witness :
    FindMaterial DefineObjectMaterials "missingTag" junkLocalMaterial =
      (true, junkLocalMaterial) :=
  C3_findMaterial_nonempty_always_found DefineObjectMaterials "missingTag"
    junkLocalMaterial (by decide) (by decide)

/-- C7: evaluation at the failing input.  Four of the five publish
operations are no-ops on a null shading-pipeline handle, but
`SetShaderMaterial` with a populated catalog and a resolving tag
dereferences the null handle (modelled as `Except.error ()`) instead of
being a no-op — the code contradicts the documented contract. -/
theorem C7_publish_null_handle :
    SetShaderColor none 1 0 0 1 = none ∧
    SetShaderTexture none initRegistry "table" = (none, []) ∧
    SetTextureUVScale none 1 1 = none ∧
    SetTransformations_publish none (1, 1, 1) 0 0 0 (0, 0, 0) (0, 0, 0) =
      none ∧
    SetShaderMaterial none DefineObjectMaterials "wood" junkLocalMaterial =
      Except.error () :=
  ⟨rfl, rfl, rfl, rfl, rfl⟩

/-- C8: every one of the twelve reference-scene tags defined by
`DefineObjectMaterials` is retrievable via `FindMaterial` with exactly the
diffuse color, specular color and shininess passed at definition,
whatever the prior value of the output parameter. -/
theorem C8_material_roundtrip (init : OBJECT_MATERIAL) :
    FindMaterial DefineObjectMaterials "plastic" init =
      (true, { init with
                 diffuseColor := (0.8, 0.4, 0.8)
                 specularColor := (0.2, 0.2, 0.2)
                 shininess := 1.0 }) ∧
    FindMaterial DefineObjectMaterials "wood" init =
      (true, { init with
                 diffuseColor := (0.6, 0.5, 0.2)
                 specularColor := (0.1, 0.2, 0.2)
                 shininess := 1.0 }) ∧
    FindMaterial DefineObjectMaterials "metal" init =
      (true, { init with
                 diffuseColor := (0.3, 0.3, 0.2)
                 specularColor := (0.7, 0.7, 0.8)
                 shininess := 8.0 }) ∧
    FindMaterial DefineObjectMaterials "glass" init =
      (true, { init with
                 diffuseColor := (0.3, 0.3, 0.2)
                 specularColor := (0.9, 0.9, 0.8)
                 shininess := 10.0 }) ∧
    FindMaterial DefineObjectMaterials "tile" init =
      (true, { init with
                 diffuseColor := (0.5, 0.5, 0.5)
                 specularColor := (0.7, 0.7, 0.7)
                 shininess := 6.0 }) ∧
    FindMaterial DefineObjectMaterials "stone" init =
      (true, { init with
                 diffuseColor := (0.5, 0.5, 0.5)
                 specularColor := (0.73, 0.3, 0.3)
                 shininess := 6.0 }) ∧
    FindMaterial DefineObjectMaterials "lampshade" init =
      (true, { init with
                 diffuseColor := (1.0, 0.98, 0.88)
                 specularColor := (0.1, 0.1, 0.1)
                 shininess := 0.5 }) ∧
    FindMaterial DefineObjectMaterials "lampbase" init =
      (true, { init with
                 diffuseColor := (0.25, 0.15, 0.05)
                 specularColor := (0.2, 0.2, 0.1)
                 shininess := 3.0 }) ∧
    FindMaterial DefineObjectMaterials "bookcover" init =
      (true, { init with
                 diffuseColor := (0.4, 0.05, 0.05)
                 specularColor := (0.05, 0.05, 0.05)
                 shininess := 0.8 }) ∧
    FindMaterial DefineObjectMaterials "jar" init =
      (true, { init with
                 diffuseColor := (0.7, 0.7, 0.9)
                 specularColor := (0.3, 0.3, 0.4)
                 shininess := 3.0 }) ∧
    FindMaterial DefineObjectMaterials "tableSurface" init =
      (true, { init with
                 diffuseColor := (0.4, 0.3, 0.2)
                 specularColor := (0.8, 0.8, 0.8)
                 shininess := 30.0 }) ∧
    FindMaterial DefineObjectMaterials "windowFrame" init =
      (true, { init with
                 diffuseColor := (0.9, 0.9, 0.9)
                 specularColor := (0.1, 0.1, 0.1)
                 shininess := 1.0 }) :=
  ⟨rfl, rfl, rfl, rfl, rfl, rfl, rfl, rfl, rfl, rfl, rfl, rfl⟩

/-- `glm_rotate` at the X unit axis is the standard rotation about X. -/
theorem glm_rotate_unitX (θ : ℝ) :
    glm_rotate θ (1, 0, 0) = rotationAboutX θ := by
  unfold glm_rotate rotationAboutX
  ext i j
  fin_cases i <;> fin_cases j <;> simp

/-- `glm_rotate` at the Y unit axis is the standard rotation about Y. -/
theorem glm_rotate_unitY (θ : ℝ) :
    glm_rotate θ (0, 1, 0) = rotationAboutY θ := by
  unfold glm_rotate rotationAboutY
  ext i j
  fin_cases i <;> fin_cases j <;> simp

/-- `glm_rotate` at the Z unit axis is the standard rotation about Z. -/
theorem glm_rotate_unitZ (θ : ℝ) :
    glm_rotate θ (0, 0, 1) = rotationAboutZ θ := by
  unfold glm_rotate rotationAboutZ
  ext i j
  fin_cases i <;> fin_cases j <;> simp

/-- C4: for all scale, per-axis rotation-in-degrees, position and offset
inputs, the model matrix `SetTransformations` computes is exactly
`Translate(position + offset) * RotateZ * RotateY * RotateX * Scale`,
where each rotation factor is the independent standard rotation about the
X, Y or Z unit axis at the degree angle converted to radians; applied to a
column vector this is scale first, then rotate about X, then Y, then Z,
then translate. -/
theorem C4_transform_composition_order (scaleXYZ : ℝ × ℝ × ℝ)
    (XrotationDegrees YrotationDegrees ZrotationDegrees : ℝ)
    (positionXYZ offset : ℝ × ℝ × ℝ) :
    SetTransformations_model scaleXYZ XrotationDegrees YrotationDegrees
        ZrotationDegrees positionXYZ offset =
      glm_translate (vec3add positionXYZ offset) *
        rotationAboutZ (radians ZrotationDegrees) *
        rotationAboutY (radians YrotationDegrees) *
        rotationAboutX (radians XrotationDegrees) *
        glm_scale scaleXYZ ∧
    ∀ v : Fin 4 → ℝ,
      (SetTransformations_model scaleXYZ XrotationDegrees YrotationDegrees
          ZrotationDegrees positionXYZ offset).mulVec v =
        (glm_translate (vec3add positionXYZ offset)).mulVec
          ((rotationAboutZ (radians ZrotationDegrees)).mulVec
            ((rotationAboutY (radians YrotationDegrees)).mulVec
              ((rotationAboutX (radians XrotationDegrees)).mulVec
                ((glm_scale scaleXYZ).mulVec v)))) := by
  have hmodel : SetTransformations_model scaleXYZ XrotationDegrees
      YrotationDegrees ZrotationDegrees positionXYZ offset =
      glm_translate (vec3add positionXYZ offset) *
        rotationAboutZ (radians ZrotationDegrees) *
        rotationAboutY (radians YrotationDegrees) *
        rotationAboutX (radians XrotationDegrees) *
        glm_scale scaleXYZ := by
    unfold SetTransformations_model
    rw [glm_rotate_unitX, glm_rotate_unitY, glm_rotate_unitZ]
  refine ⟨hmodel, fun v => ?_⟩
  rw [hmodel]
  simp only [Matrix.mulVec_mulVec, Matrix.mul_assoc]

/-- C5: `BindGLTextures` binds the i-th registered texture to texture
unit i (slot equals registration index, starting at unit 0);
`FindTextureSlot` returns the index of the first registered entry whose
tag matches, and -1 when no registered tag matches; concretely, after
registering "a", "b", "c" the binds are units 0, 1, 2 in registration
order and `FindTextureSlot "b"` is 1. -/
theorem C5_texture_slot_contract :
    (∀ (r : TextureRegistry) (i : Nat), i < r.m_loadedTextures.toNat →
        (BindGLTextures r)[i]? =
          some ((i : Int), (r.m_textureIDs (i : Int)).ID)) ∧
    (∀ (r : TextureRegistry) (tag : String) (i : Int),
        0 ≤ i → i < r.m_loadedTextures →
        (r.m_textureIDs i).tag = tag →
        (∀ j : Int, 0 ≤ j → j < i → (r.m_textureIDs j).tag ≠ tag) →
        FindTextureSlot r tag = i) ∧
    (∀ (r : TextureRegistry) (tag : String),
        (∀ j : Int, 0 ≤ j → j < r.m_loadedTextures →
            (r.m_textureIDs j).tag ≠ tag) →
        FindTextureSlot r tag = -1) ∧
    BindGLTextures regABC = [(0, 101), (1, 102), (2, 103)] ∧
    FindTextureSlot regABC "a" = 0 ∧
    FindTextureSlot regABC "b" = 1 ∧
    FindTextureSlot regABC "c" = 2 ∧
    FindTextureSlot regABC "absent" = -1 := by
  refine ⟨?_, ?_, ?_, by decide, by decide, by decide, by decide, by decide⟩
  · intro r i h
    rw [BindGLTextures, List.getElem?_map, List.getElem?_range h]
    rfl
  · intro r tag i h0 hlt hm hmiss
    exact findSlotLoop_first r.m_textureIDs tag r.m_loadedTextures.toNat 0 i
      h0 (by omega) hm (fun j hj1 hj2 => hmiss j hj1 (by omega))
  · intro r tag hmiss
    exact findSlotLoop_none r.m_textureIDs tag r.m_loadedTextures.toNat 0
      (fun j hj1 hj2 => hmiss j hj1 (by omega))

/-- C5 witness: the slot contract applied to the concrete registry with
"a", "b", "c" registered. -/
theorem C5_witness :
    FindTextureSlot regABC "b" = 1 ∧
    (BindGLTextures regABC)[1]? = some (1, 102) :=
  ⟨C5_texture_slot_contract.2.2.2.2.2.1,
   C5_texture_slot_contract.1 regABC 1 (by decide)⟩

/-- C6: when the registry already holds `MAX_TEXTURES` textures, a further
successful decode makes `CreateGLTexture` return false, delete exactly the
just-created GPU texture, and leave the registry unchanged: same count,
and every tag still resolves to the same slot and handle. -/
theorem C6_capacity_enforcement (r : TextureRegistry)
    (filename tag : String) (img : DecodedImage) (textureID : Nat)
    (hfull : r.m_loadedTextures = MAX_TEXTURES)
    (hch : img.colorChannels = 3 ∨ img.colorChannels = 4) :
    CreateGLTexture r filename tag (some img) textureID =
      (false, r, [textureID]) ∧
    (CreateGLTexture r filename tag (some img) textureID).2.1.m_loadedTextures = r.m_loadedTextures ∧
    (∀ t, FindTextureSlot
        (CreateGLTexture r filename tag (some img) textureID).2.1 t =
      FindTextureSlot r t) ∧
    (∀ t, FindTextureID
        (CreateGLTexture r filename tag (some img) textureID).2.1 t =
      FindTextureID r t) := by
  have hnot : ¬ r.m_loadedTextures < MAX_TEXTURES := by
    rw [hfull]
    exact lt_irrefl _
  have hres : CreateGLTexture r filename tag (some img) textureID =
      (false, r, [textureID]) := by
    simp only [CreateGLTexture, if_pos hch, if_neg hnot]
  exact ⟨hres, by rw [hres], fun t => by rw [hres], fun t => by rw [hres]⟩

/-- C6 witness: the capacity check at a concrete full registry. -/
theorem C6_witness :
    CreateGLTexture fullRegistry16 "overflow.jpg" "overflow"
        (some { width := 2, height := 2, colorChannels := 4 }) 999 =
      (false, fullRegistry16, [999]) :=
  (C6_capacity_enforcement fullRegistry16 "overflow.jpg" "overflow"
    { width := 2, height := 2, colorChannels := 4 } 999 rfl (Or.inr rfl)).1

/-- C9: `DestroyGLTextures` resets the count to zero, passes every
registered handle to `glDeleteTextures`, and is idempotent: a second call
leaves the state exactly as after the first and issues no further
deletions (no double-free). -/
theorem C9_destroy_idempotent (r : TextureRegistry) :
    ((DestroyGLTextures r).1).m_loadedTextures = 0 ∧
    (∀ i : Int, 0 ≤ i → i < r.m_loadedTextures →
        (i, (r.m_textureIDs i).ID) ∈ (DestroyGLTextures r).2) ∧
    DestroyGLTextures ((DestroyGLTextures r).1) =
      ((DestroyGLTextures r).1, []) := by
  refine ⟨rfl, ?_, rfl⟩
  intro i h0 hlt
  simp only [DestroyGLTextures, List.mem_map, List.mem_range]
  refine ⟨i.toNat, by omega, ?_⟩
  rw [Int.toNat_of_nonneg h0]

/-- C9 witness: teardown of the concrete registry with "a", "b", "c"
registered, applied twice. -/
theorem C9_witness :
    ((DestroyGLTextures regABC).1).m_loadedTextures = 0 ∧
    ((0 : Int), 101) ∈ (DestroyGLTextures regABC).2 ∧
    DestroyGLTextures ((DestroyGLTextures regABC).1) =
      ((DestroyGLTextures regABC).1, []) :=
  ⟨(C9_destroy_idempotent regABC).1,
   (C9_destroy_idempotent regABC).2.1 0 (by decide) (by decide),
   (C9_destroy_idempotent regABC).2.2⟩

/-- C10: registry invariant.  After construction and after every
operation the count satisfies `0 ≤ m_loadedTextures ≤ MAX_TEXTURES`
(given it did before), and every array index the scans, the bind loop and
the destroy loop touch is at least 0 and strictly below the count, so all
accesses to the fixed-size texture array are in bounds. -/
theorem C10_registry_invariant :
    (0 ≤ initRegistry.m_loadedTextures ∧
      initRegistry.m_loadedTextures ≤ MAX_TEXTURES) ∧
    (∀ (r : TextureRegistry) (filename tag : String)
        (image : Option DecodedImage) (textureID : Nat),
        0 ≤ r.m_loadedTextures → r.m_loadedTextures ≤ MAX_TEXTURES →
        0 ≤ (CreateGLTexture r filename tag image textureID).2.1.m_loadedTextures ∧
          (CreateGLTexture r filename tag image textureID).2.1.m_loadedTextures ≤ MAX_TEXTURES) ∧
    (∀ r : TextureRegistry,
        0 ≤ ((DestroyGLTextures r).1).m_loadedTextures ∧
          ((DestroyGLTextures r).1).m_loadedTextures ≤ MAX_TEXTURES) ∧
    (∀ (r : TextureRegistry) (tag : String),
        ∀ j ∈ (findSlotLoop r.m_textureIDs tag
            r.m_loadedTextures.toNat 0).2,
          0 ≤ j ∧ j < r.m_loadedTextures) ∧
    (∀ (r : TextureRegistry) (tag : String),
        ∀ j ∈ (findIDLoop r.m_textureIDs tag
            r.m_loadedTextures.toNat 0).2,
          0 ≤ j ∧ j < r.m_loadedTextures) ∧
    (∀ r : TextureRegistry, ∀ p ∈ BindGLTextures r,
        0 ≤ p.1 ∧ p.1 < r.m_loadedTextures) ∧
    (∀ r : TextureRegistry, ∀ p ∈ (DestroyGLTextures r).2,
        0 ≤ p.1 ∧ p.1 < r.m_loadedTextures) := by
  refine ⟨⟨by decide, by decide⟩, ?_, ?_, ?_, ?_, ?_, ?_⟩
  · intro r filename tag image textureID h0 h16
    match image with
    | none => exact ⟨h0, h16⟩
    | some d =>
      by_cases hch : d.colorChannels = 3 ∨ d.colorChannels = 4
      · by_cases hcap : r.m_loadedTextures < MAX_TEXTURES
        · simp only [CreateGLTexture, if_pos hch, if_pos hcap]
          simp only [MAX_TEXTURES] at h16 hcap ⊢
          omega
        · simp only [CreateGLTexture, if_pos hch, if_neg hcap]
          exact ⟨h0, h16⟩
      · simp only [CreateGLTexture, if_neg hch]
        exact ⟨h0, h16⟩
  · intro r
    exact ⟨le_rfl, by simp [DestroyGLTextures, MAX_TEXTURES]⟩
  · intro r tag j hj
    have := findSlotLoop_touched r.m_textureIDs tag
      r.m_loadedTextures.toNat 0 j hj
    omega
  · intro r tag j hj
    have := findIDLoop_touched r.m_textureIDs tag
      r.m_loadedTextures.toNat 0 j hj
    omega
  · intro r p hp
    simp only [BindGLTextures, List.mem_map, List.mem_range] at hp
    obtain ⟨a, ha, rfl⟩ := hp
    exact ⟨by simp, by simp; omega⟩
  · intro r p hp
    simp only [DestroyGLTextures, List.mem_map, List.mem_range] at hp
    obtain ⟨a, ha, rfl⟩ := hp
    exact ⟨by simp, by simp; omega⟩

/-- C10 witness: the preserved count bound applied to the concrete
registry with three textures registered. -/
theorem C10_witness :
    0 ≤ ((CreateGLTexture regABC "d.jpg" "d"
        (some { width := 2, height := 2, colorChannels := 3 })
        104).2.1).m_loadedTextures ∧
    ((CreateGLTexture regABC "d.jpg" "d"
        (some { width := 2, height := 2, colorChannels := 3 })
        104).2.1).m_loadedTextures ≤ MAX_TEXTURES :=
  C10_registry_invariant.2.1 regABC "d.jpg" "d"
    (some { width := 2, height := 2, colorChannels := 3 }) 104
    (by decide) (by decide)

end SceneMgr
